import Mathlib

/-!
Verification of the IMDB movie-reviews dataset builder
(`src/datasets/nlp/imdb/imdb.py`) against its specification.

The builder's logic is a regex-based path matcher, a lazy example
generator, a vocab-corpus projection, a fixed split plan and four
builder configurations.  We embed each of those shallowly:

* An archive is a finite ordered list of `(path, content)` entries; the
  Python generator, which lazily yields from a single-pass iterator, is
  embedded as a pure function from that list to the list of yielded
  `(key, Example)` pairs (same order, same elements).
* `imdb_f.read().strip()` reads the full byte content and strips the
  Python whitespace set `b" \t\n\r\x0b\x0c"` from both ends; contents
  are modelled as `String`s and the strip is `pyStrip`.
* The compiled pattern is
  `os.path.join("^" + directory, reg_path, "")`, i.e.
  `^<directory>/<reg_path>/` with `reg_path = (?P<label>neg|pos)` when
  `labeled` and the literal `unsup` otherwise, matched with `re.match`
  (anchored at the start of the path).  POSIX path separator `/` is
  assumed (the `.replace("\\", "\\\\")` is the identity there).  For
  the directories the builder actually passes (`aclImdb/train`,
  `aclImdb/test`) the directory text contains no regex metacharacters,
  so the regex accepts a path exactly when
  `<directory>/neg/` or `<directory>/pos/` (resp. `<directory>/unsup/`)
  is a literal prefix of it, with the `label` group bound to the
  matched alternative; `pathMatch` embeds exactly that.
-/

namespace Imdb

/-- The characters of Python's `bytes.strip()` default whitespace set,
`b" \t\n\r\x0b\x0c"`. -/
def isPySpace (c : Char) : Bool :=
  c = ' ' || c = '\t' || c = '\n' || c = '\r' || c = '\x0b' || c = '\x0c'

/-- Embeds `content.strip()` on the full byte content of an entry:
drop Python-whitespace characters from both ends. -/
def pyStrip (s : String) : String :=
  ⟨((s.data.dropWhile isPySpace).reverse.dropWhile isPySpace).reverse⟩

/-- Embeds `os.path.join(a, b)` with the POSIX separator. -/
def joinPath (a b : String) : String := a ++ "/" ++ b

/-- `os.path.join("aclImdb", "train")`, the directory of the train and
unsupervised splits. -/
def trainDir : String := joinPath "aclImdb" "train"

/-- `os.path.join("aclImdb", "test")`, the directory of the test split. -/
def testDir : String := joinPath "aclImdb" "test"

/-- `pat` is a literal prefix of the path `s` (the anchored-match
primitive of `re.match` for a pattern without metacharacters). -/
def strStarts (s pat : String) : Bool := pat.data.isPrefixOf s.data

/-- Embeds `reg.match(path)` for the compiled pattern
`^<directory>/<reg_path>/`: returns the matched directory segment
(`"neg"`/`"pos"` — the value of the `label` group — when `labeled`,
`"unsup"` otherwise), or `none` when the path does not match.  The
alternation `neg|pos` is tried left to right, as in the regex. -/
def pathMatch (directory : String) (labeled : Bool) (path : String) : Option String :=
  if labeled then
    if strStarts path (joinPath directory "neg" ++ "/") then some "neg"
    else if strStarts path (joinPath directory "pos" ++ "/") then some "pos"
    else none
  else
    if strStarts path (joinPath directory "unsup" ++ "/") then some "unsup" else none

/-- A label value as yielded by the generator: the Python value is
either the string of the regex `label` group or the int `-1`. -/
inductive LabelV where
  | str (s : String)
  | int (i : Int)
deriving DecidableEq

/-- The yielded record `{"text": ..., "label": ...}`. -/
structure Example where
  text : String
  label : LabelV
deriving DecidableEq

/-- Embeds `label = res.groupdict()["label"] if labeled else -1`; when
`labeled` holds the `label` group equals the matched segment. -/
def mkLabel (labeled : Bool) (seg : String) : LabelV :=
  if labeled then LabelV.str seg else LabelV.int (-1)

/-- Embeds `_generate_examples(archive, directory, labeled)`: iterate
the archive entries in order; skip entries whose path does not match;
for a matching entry read its content, strip it, and yield
`(path, {"text": text, "label": label})`.  In the source `labeled`
defaults to `True`; call sites omitting it are embedded passing
`true`. -/
def generateExamples (archive : List (String × String)) (directory : String)
    (labeled : Bool) : List (String × Example) :=
  match archive with
  | [] => []
  | (path, content) :: rest =>
    match pathMatch directory labeled path with
    | none => generateExamples rest directory labeled
    | some seg =>
      (path, { text := pyStrip content, label := mkLabel labeled seg }) ::
        generateExamples rest directory labeled

/-- The per-entry step of the generator, as an optional yielded pair. -/
def genStep (directory : String) (labeled : Bool) (e : String × String) :
    Option (String × Example) :=
  (pathMatch directory labeled e.1).map
    (fun seg => (e.1, { text := pyStrip e.2, label := mkLabel labeled seg }))

lemma generateExamples_eq_filterMap (archive : List (String × String))
    (directory : String) (labeled : Bool) :
    generateExamples archive directory labeled = archive.filterMap (genStep directory labeled) := by
  induction archive with
  | nil => rfl
  | cons e rest ih =>
    obtain ⟨p, c⟩ := e
    rw [generateExamples, List.filterMap_cons]
    cases h : pathMatch directory labeled p with
    | none => simp [genStep, h, ih]
    | some seg => simp [genStep, h, ih]

/-- The names of the `ClassLabel` feature declared in `_info`:
`nlp.features.ClassLabel(names=["neg", "pos"])`. -/
def classLabelNames : List String := ["neg", "pos"]

/-- The integer a class-label string is encoded to: its index in
`classLabelNames` (so `"neg" ↦ 0`, `"pos" ↦ 1`). -/
def classLabelStr2Int (s : String) : Option Nat := classLabelNames.indexOf? s

/-- The encoder selected by a `TextEncoderConfig` in the source:
the default (`None`), a `ByteTextEncoder` instance, or the
`SubwordTextEncoder` class. -/
inductive EncoderSel where
  | noneEncoder
  | byteTextEncoder
  | subwordTextEncoder
deriving DecidableEq

/-- The fields of `nlp.features.text.TextEncoderConfig` that the
builder sets: the encoder selection and (for subword variants) the
target vocabulary size. -/
structure TextEncoderConfig where
  encoder : EncoderSel
  vocabSize : Option Nat
deriving DecidableEq

/-- The data of an `IMDBReviewsConfig`: its name and its
`text_encoder_config` (defaulting to `TextEncoderConfig()` when not
passed, as in `IMDBReviewsConfig.__init__`). -/
structure IMDBReviewsConfig where
  name : String
  textEncoderConfig : TextEncoderConfig
deriving DecidableEq

/-- Embeds `IMDBReviews.BUILDER_CONFIGS`: the four declared
configuration variants, in source order. -/
def BUILDER_CONFIGS : List IMDBReviewsConfig :=
  [ { name := "plain_text",
      textEncoderConfig := { encoder := EncoderSel.noneEncoder, vocabSize := none } },
    { name := "bytes",
      textEncoderConfig := { encoder := EncoderSel.byteTextEncoder, vocabSize := none } },
    { name := "subwords8k",
      textEncoderConfig := { encoder := EncoderSel.subwordTextEncoder, vocabSize := some (2 ^ 13) } },
    { name := "subwords32k",
      textEncoderConfig := { encoder := EncoderSel.subwordTextEncoder, vocabSize := some (2 ^ 15) } } ]

/-- The data of one `nlp.SplitGenerator`: the split name and the
`gen_kwargs` passed to `_generate_examples` (`labeled` is `true` where
the source omits it, matching the `labeled=True` default). -/
structure SplitGenerator where
  name : String
  directory : String
  labeled : Bool
deriving DecidableEq

/-- Embeds the list returned by `_split_generators`, in source order
(the download and archive-handle plumbing is external and carries no
per-split data beyond `gen_kwargs`). -/
def splitGenerators : List SplitGenerator :=
  [ { name := "train", directory := joinPath "aclImdb" "train", labeled := true },
    { name := "test", directory := joinPath "aclImdb" "test", labeled := true },
    { name := "unsupervised", directory := joinPath "aclImdb" "train", labeled := false } ]

/-- The body of the loop in `_vocab_text_gen`: yield `ex["text"]` for
each pair produced by the wrapped generator. -/
def vocabYield : List (String × Example) → List String
  | [] => []
  | (_, ex) :: rest => ex.text :: vocabYield rest

/-- Embeds `_vocab_text_gen(archive)`:
`for _, ex in self._generate_examples(archive, os.path.join("aclImdb", "train")): yield ex["text"]`
(the `labeled` argument is omitted in the source, so it is `True`). -/
def vocabTextGen (archive : List (String × String)) : List String :=
  vocabYield (generateExamples archive (joinPath "aclImdb" "train") true)

/-- An archive entry's content stream, instrumented with a `consumed`
flag recording whether `read()` was ever called on it. -/
structure ByteStream where
  content : String
  consumed : Bool
deriving DecidableEq

/-- Embeds `imdb_f.read()`: returns the full content and the stream in
its consumed state. -/
def readStream (f : ByteStream) : String × ByteStream :=
  (f.content, { content := f.content, consumed := true })

/-- The generator loop again, with the entry contents as instrumented
streams: each iteration applies `pathMatch` first and touches the
entry's stream only in the matching branch (`text = imdb_f.read().strip()`
comes after `if not res: continue` in the source).  Returns the yielded
pairs together with the final state of every entry's stream, in
order. -/
def generateExamplesStream (archive : List (String × ByteStream)) (directory : String)
    (labeled : Bool) : List (String × Example) × List (String × ByteStream) :=
  match archive with
  | [] => ([], [])
  | (path, f) :: rest =>
    match pathMatch directory labeled path with
    | none =>
      let r := generateExamplesStream rest directory labeled
      (r.1, (path, f) :: r.2)
    | some seg =>
      let rd := readStream f
      let r := generateExamplesStream rest directory labeled
      ((path, { text := pyStrip rd.1, label := mkLabel labeled seg }) :: r.1,
        (path, rd.2) :: r.2)

/-! Helper lemmas. -/

lemma strStarts_iff {s pat : String} : strStarts s pat = true ↔ pat.data <+: s.data := by
  rw [strStarts, List.isPrefixOf_iff_prefix]

/-- Two literal patterns that are not nested cannot both be prefixes of
the same path. -/
lemma strStarts_disjoint {s p1 p2 : String}
    (h1 : strStarts s p1 = true) (h2 : strStarts s p2 = true)
    (hlen : p1.data.length ≤ p2.data.length)
    (hnp : ¬ (p1.data <+: p2.data)) : False :=
  hnp (List.prefix_of_prefix_length_le (strStarts_iff.mp h1) (strStarts_iff.mp h2) hlen)

lemma pathMatch_true_cases {d p seg : String} (h : pathMatch d true p = some seg) :
    (strStarts p (joinPath d "neg" ++ "/") = true ∧ seg = "neg") ∨
    (strStarts p (joinPath d "neg" ++ "/") = false ∧
      strStarts p (joinPath d "pos" ++ "/") = true ∧ seg = "pos") := by
  cases hneg : strStarts p (joinPath d "neg" ++ "/") with
  | true =>
    left
    refine ⟨rfl, ?_⟩
    simp [pathMatch, hneg] at h
    exact h.symm
  | false =>
    right
    cases hpos : strStarts p (joinPath d "pos" ++ "/") with
    | true =>
      refine ⟨rfl, rfl, ?_⟩
      simp [pathMatch, hneg, hpos] at h
      exact h.symm
    | false => simp [pathMatch, hneg, hpos] at h

lemma pathMatch_false_cases {d p seg : String} (h : pathMatch d false p = some seg) :
    strStarts p (joinPath d "unsup" ++ "/") = true ∧ seg = "unsup" := by
  cases hu : strStarts p (joinPath d "unsup" ++ "/") with
  | true =>
    refine ⟨rfl, ?_⟩
    simp [pathMatch, hu] at h
    exact h.symm
  | false => simp [pathMatch, hu] at h

lemma pathMatch_true_isSome {d p : String} :
    (pathMatch d true p).isSome = true ↔
      (strStarts p (joinPath d "neg" ++ "/") = true ∨
        strStarts p (joinPath d "pos" ++ "/") = true) := by
  cases hneg : strStarts p (joinPath d "neg" ++ "/") <;>
    cases hpos : strStarts p (joinPath d "pos" ++ "/") <;>
      simp [pathMatch, hneg, hpos]

lemma pathMatch_false_isSome {d p : String} :
    (pathMatch d false p).isSome = true ↔
      strStarts p (joinPath d "unsup" ++ "/") = true := by
  cases hu : strStarts p (joinPath d "unsup" ++ "/") <;> simp [pathMatch, hu]

/-- Inversion for generator membership: every yielded pair comes from an
archive entry with the same path whose path matched, and the record's
fields are the stripped content and the computed label. -/
lemma mem_generateExamples {archive : List (String × String)} {d : String} {lab : Bool}
    {p : String} {ex : Example} (h : (p, ex) ∈ generateExamples archive d lab) :
    ∃ c seg, (p, c) ∈ archive ∧ pathMatch d lab p = some seg ∧
      ex = { text := pyStrip c, label := mkLabel lab seg } := by
  rw [generateExamples_eq_filterMap] at h
  obtain ⟨e, he, hstep⟩ := List.mem_filterMap.mp h
  obtain ⟨q, c⟩ := e
  simp only [genStep] at hstep
  obtain ⟨seg, hm, heq⟩ := Option.map_eq_some'.mp hstep
  rw [Prod.mk.injEq] at heq
  obtain ⟨rfl, rfl⟩ := heq
  exact ⟨c, seg, he, hm, rfl⟩

/-- Introduction for generator membership: a matching archive entry is
yielded with its stripped content and computed label. -/
lemma mem_generateExamples_of {archive : List (String × String)} {d : String} {lab : Bool}
    {p c seg : String} (hentry : (p, c) ∈ archive) (hm : pathMatch d lab p = some seg) :
    (p, { text := pyStrip c, label := mkLabel lab seg }) ∈ generateExamples archive d lab := by
  rw [generateExamples_eq_filterMap]
  exact List.mem_filterMap.mpr ⟨(p, c), hentry, by simp [genStep, hm]⟩

lemma vocabYield_eq_map (l : List (String × Example)) :
    vocabYield l = l.map (fun pe => pe.2.text) := by
  induction l with
  | nil => rfl
  | cons e rest ih => obtain ⟨p, ex⟩ := e; rw [vocabYield, List.map_cons, ih]

/-! Claim theorems. -/

/-- Claim C1: for every pair emitted by `_generate_examples` with
`labeled = true` on a labeled split's directory (`aclImdb/train` or
`aclImdb/test`), if the entry's path lies under the directory's `neg`
subdirectory then the emitted label is `"neg"`, and analogously `"pos"`
for paths under the `pos` subdirectory. -/
theorem C1_labeled_label_matches_subdirectory
    (archive : List (String × String)) (d : String)
    (hd : d = trainDir ∨ d = testDir) (p : String) (ex : Example)
    (hmem : (p, ex) ∈ generateExamples archive d true) :
    (strStarts p (joinPath d "neg" ++ "/") = true → ex.label = LabelV.str "neg") ∧
    (strStarts p (joinPath d "pos" ++ "/") = true → ex.label = LabelV.str "pos") := by
  obtain ⟨c, seg, hc, hm, rfl⟩ := mem_generateExamples hmem
  rcases pathMatch_true_cases hm with ⟨hneg, rfl⟩ | ⟨hneg, hpos, rfl⟩
  · refine ⟨fun _ => rfl, fun hp => ?_⟩
    exfalso
    rcases hd with rfl | rfl
    · exact strStarts_disjoint hneg hp (by decide) (by decide)
    · exact strStarts_disjoint hneg hp (by decide) (by decide)
  · refine ⟨fun hn => ?_, fun _ => rfl⟩
    rw [hn] at hneg
    cases hneg

/-- Witness for C1: a concrete one-entry archive under `train/neg`. -/
theorem C1_witness :
    (strStarts "aclImdb/train/neg/0.txt" (joinPath trainDir "neg" ++ "/") = true →
      ({ text := "x", label := LabelV.str "neg" } : Example).label = LabelV.str "neg") ∧
    (strStarts "aclImdb/train/neg/0.txt" (joinPath trainDir "pos" ++ "/") = true →
      ({ text := "x", label := LabelV.str "neg" } : Example).label = LabelV.str "pos") :=
  C1_labeled_label_matches_subdirectory [("aclImdb/train/neg/0.txt", "x")] trainDir
    (Or.inl rfl) "aclImdb/train/neg/0.txt" { text := "x", label := LabelV.str "neg" }
    (by decide)

/-- Claim C2: a path appears as a key in a split's output iff some
archive entry has that path and the path matches the split's anchored
pattern (the directory, then `neg`/`pos` when labeled or `unsup` when
not, then the separator); every non-matching entry is skipped with no
error and never appears in the output, and in particular an entry under
`train/unsup` is never yielded by the labeled train split. -/
theorem C2_yielded_iff_pattern_match
    (archive : List (String × String)) (d : String) (lab : Bool)
    (hd : (lab = true ∧ (d = trainDir ∨ d = testDir)) ∨ (lab = false ∧ d = trainDir))
    (p : String) :
    ((∃ ex, (p, ex) ∈ generateExamples archive d lab) ↔
      (∃ c, (p, c) ∈ archive ∧
        (if lab then
          strStarts p (joinPath d "neg" ++ "/") = true ∨
            strStarts p (joinPath d "pos" ++ "/") = true
         else strStarts p (joinPath d "unsup" ++ "/") = true))) ∧
    (strStarts p (joinPath trainDir "unsup" ++ "/") = true →
      ∀ ex, (p, ex) ∉ generateExamples archive trainDir true) := by
  constructor
  · rcases hd with ⟨rfl, _⟩ | ⟨rfl, rfl⟩
    · constructor
      · rintro ⟨ex, hmem⟩
        obtain ⟨c, seg, hc, hm, rfl⟩ := mem_generateExamples hmem
        refine ⟨c, hc, ?_⟩
        show strStarts p (joinPath d "neg" ++ "/") = true ∨
          strStarts p (joinPath d "pos" ++ "/") = true
        rcases pathMatch_true_cases hm with ⟨hneg, _⟩ | ⟨_, hpos, _⟩
        · exact Or.inl hneg
        · exact Or.inr hpos
      · rintro ⟨c, hc, hpat⟩
        have hpat' : strStarts p (joinPath d "neg" ++ "/") = true ∨
            strStarts p (joinPath d "pos" ++ "/") = true := hpat
        obtain ⟨seg, hm⟩ := Option.isSome_iff_exists.mp (pathMatch_true_isSome.mpr hpat')
        exact ⟨_, mem_generateExamples_of hc hm⟩
    · constructor
      · rintro ⟨ex, hmem⟩
        obtain ⟨c, seg, hc, hm, rfl⟩ := mem_generateExamples hmem
        exact ⟨c, hc, (pathMatch_false_cases hm).1⟩
      · rintro ⟨c, hc, hpat⟩
        obtain ⟨seg, hm⟩ := Option.isSome_iff_exists.mp (pathMatch_false_isSome.mpr hpat)
        exact ⟨_, mem_generateExamples_of hc hm⟩
  · intro hunsup ex hmem
    obtain ⟨c, seg, hc, hm, _⟩ := mem_generateExamples hmem
    rcases pathMatch_true_cases hm with ⟨hneg, _⟩ | ⟨_, hpos, _⟩
    · exact strStarts_disjoint hneg hunsup (by decide) (by decide)
    · exact strStarts_disjoint hpos hunsup (by decide) (by decide)

/-- Witness for C2: the labeled train split on an archive whose only
entry is under `train/unsup`. -/
theorem C2_witness :
    ((∃ ex, ("aclImdb/train/unsup/5.txt", ex) ∈
        generateExamples [("aclImdb/train/unsup/5.txt", "Meh.")] trainDir true) ↔
      (∃ c, ("aclImdb/train/unsup/5.txt", c) ∈ [("aclImdb/train/unsup/5.txt", "Meh.")] ∧
        (if (true : Bool) then
          strStarts "aclImdb/train/unsup/5.txt" (joinPath trainDir "neg" ++ "/") = true ∨
            strStarts "aclImdb/train/unsup/5.txt" (joinPath trainDir "pos" ++ "/") = true
         else strStarts "aclImdb/train/unsup/5.txt" (joinPath trainDir "unsup" ++ "/") = true))) ∧
    (strStarts "aclImdb/train/unsup/5.txt" (joinPath trainDir "unsup" ++ "/") = true →
      ∀ ex, ("aclImdb/train/unsup/5.txt", ex) ∉
        generateExamples [("aclImdb/train/unsup/5.txt", "Meh.")] trainDir true) :=
  C2_yielded_iff_pattern_match [("aclImdb/train/unsup/5.txt", "Meh.")] trainDir true
    (Or.inl ⟨rfl, Or.inl rfl⟩) "aclImdb/train/unsup/5.txt"

/-- Claim C3: every emitted record's label is consistent with the
directory segment of its path: `neg` (class index 0) and `pos` (class
index 1) on the labeled splits, and the sentinel `-1` on the
unsupervised split's `unsup` segment. -/
theorem C3_label_consistent_with_segment
    (archive : List (String × String)) (d : String) (lab : Bool) (p : String) (ex : Example)
    (hd : (lab = true ∧ (d = trainDir ∨ d = testDir)) ∨ (lab = false ∧ d = trainDir))
    (hmem : (p, ex) ∈ generateExamples archive d lab) :
    ∃ seg, strStarts p (joinPath d seg ++ "/") = true ∧
      ((seg = "neg" ∧ ex.label = LabelV.str "neg" ∧ classLabelStr2Int "neg" = some 0) ∨
       (seg = "pos" ∧ ex.label = LabelV.str "pos" ∧ classLabelStr2Int "pos" = some 1) ∨
       (seg = "unsup" ∧ lab = false ∧ ex.label = LabelV.int (-1))) := by
  obtain ⟨c, seg, hc, hm, rfl⟩ := mem_generateExamples hmem
  rcases hd with ⟨rfl, _⟩ | ⟨rfl, _⟩
  · rcases pathMatch_true_cases hm with ⟨hneg, rfl⟩ | ⟨_, hpos, rfl⟩
    · exact ⟨"neg", hneg, Or.inl ⟨rfl, rfl, by decide⟩⟩
    · exact ⟨"pos", hpos, Or.inr (Or.inl ⟨rfl, rfl, by decide⟩)⟩
  · obtain ⟨hu, rfl⟩ := pathMatch_false_cases hm
    exact ⟨"unsup", hu, Or.inr (Or.inr ⟨rfl, rfl, rfl⟩)⟩

/-- Witness for C3: a concrete `train/pos` entry on the labeled train
split. -/
theorem C3_witness :
    ∃ seg, strStarts "aclImdb/train/pos/1.txt" (joinPath trainDir seg ++ "/") = true ∧
      ((seg = "neg" ∧ ({ text := "ok", label := LabelV.str "pos" } : Example).label = LabelV.str "neg" ∧
          classLabelStr2Int "neg" = some 0) ∨
       (seg = "pos" ∧ ({ text := "ok", label := LabelV.str "pos" } : Example).label = LabelV.str "pos" ∧
          classLabelStr2Int "pos" = some 1) ∨
       (seg = "unsup" ∧ (true : Bool) = false ∧
          ({ text := "ok", label := LabelV.str "pos" } : Example).label = LabelV.int (-1))) :=
  C3_label_consistent_with_segment [("aclImdb/train/pos/1.txt", "ok")] trainDir true
    "aclImdb/train/pos/1.txt" { text := "ok", label := LabelV.str "pos" }
    (Or.inl ⟨rfl, Or.inl rfl⟩) (by decide)

/-- Claim C4: every matched archive entry is yielded as a pair whose
key is the original entry path and whose record has the entry's full
content with leading and trailing whitespace stripped as `text` and the
computed label. -/
theorem C4_yields_path_key_and_stripped_text
    (archive : List (String × String)) (d : String) (lab : Bool)
    (p c seg : String) (hentry : (p, c) ∈ archive)
    (hm : pathMatch d lab p = some seg) :
    (p, { text := pyStrip c, label := mkLabel lab seg }) ∈ generateExamples archive d lab :=
  mem_generateExamples_of hentry hm

/-- Witness for C4: the spec's example scenario — an archive containing
`aclImdb/train/pos/0_9.txt` with content `"Great movie!"` yields that
path as key with text `"Great movie!"` and label `"pos"` on the train
split. -/
theorem C4_witness :
    (("aclImdb/train/pos/0_9.txt",
      { text := "Great movie!", label := LabelV.str "pos" }) : String × Example) ∈
      generateExamples [("aclImdb/train/pos/0_9.txt", "Great movie!")] trainDir true := by
  have h := C4_yields_path_key_and_stripped_text
    [("aclImdb/train/pos/0_9.txt", "Great movie!")] trainDir true
    "aclImdb/train/pos/0_9.txt" "Great movie!" "pos" (by decide) (by decide)
  have e1 : pyStrip "Great movie!" = "Great movie!" := by decide
  have e2 : mkLabel true "pos" = LabelV.str "pos" := rfl
  rw [e1, e2] at h
  exact h

/-- Claim C5: the generator is deterministic in its inputs — two fresh
archive iterators presenting the same ordered entries produce identical
ordered outputs for the same directory and labeled flag. -/
theorem C5_deterministic (a1 a2 : List (String × String)) (d : String) (lab : Bool)
    (h : a1 = a2) : generateExamples a1 d lab = generateExamples a2 d lab := by
  rw [h]

/-- Witness for C5 at a concrete archive. -/
theorem C5_witness :
    generateExamples [("aclImdb/train/neg/1.txt", "bad")] trainDir true =
      generateExamples [("aclImdb/train/neg/1.txt", "bad")] trainDir true :=
  C5_deterministic [("aclImdb/train/neg/1.txt", "bad")] [("aclImdb/train/neg/1.txt", "bad")]
    trainDir true rfl

/-- Claim C6: `_split_generators` declares exactly three splits —
`"train"` on `aclImdb/train` labeled, `"test"` on `aclImdb/test`
labeled, and `"unsupervised"` unlabeled reusing the `aclImdb/train`
directory; the plan is a fixed constant of the builder. -/
theorem C6_split_plan :
    splitGenerators.length = 3 ∧
    splitGenerators.map SplitGenerator.name = ["train", "test", "unsupervised"] ∧
    splitGenerators.map SplitGenerator.directory =
      [joinPath "aclImdb" "train", joinPath "aclImdb" "test", joinPath "aclImdb" "train"] ∧
    splitGenerators.map SplitGenerator.labeled = [true, true, false] :=
  ⟨rfl, rfl, rfl, rfl⟩

/-- Claim C7: a matched entry whose content strips to the empty string
is still yielded, with an empty `text` field, not skipped. -/
theorem C7_empty_text_still_yielded
    (p c : String) (rest : List (String × String)) (d : String) (lab : Bool) (seg : String)
    (hm : pathMatch d lab p = some seg) (hempty : pyStrip c = "") :
    generateExamples ((p, c) :: rest) d lab =
      (p, { text := "", label := mkLabel lab seg }) :: generateExamples rest d lab := by
  simp only [generateExamples, hm, hempty]

/-- Witness for C7: a `train/neg` entry holding only whitespace. -/
theorem C7_witness :
    generateExamples [("aclImdb/train/neg/0.txt", "  \n ")] trainDir true =
      ("aclImdb/train/neg/0.txt", { text := "", label := mkLabel true "neg" }) ::
        generateExamples [] trainDir true :=
  C7_empty_text_still_yielded "aclImdb/train/neg/0.txt" "  \n " [] trainDir true "neg"
    (by decide) (by decide)

/-- Claim C8: `BUILDER_CONFIGS` enumerates exactly the four variants
`plain_text`, `bytes`, `subwords8k`, `subwords32k`, the subword ones
carrying vocabulary sizes `8192 = 2^13` and `32768 = 2^15`. -/
theorem C8_builder_configs :
    BUILDER_CONFIGS.length = 4 ∧
    BUILDER_CONFIGS.map IMDBReviewsConfig.name =
      ["plain_text", "bytes", "subwords8k", "subwords32k"] ∧
    BUILDER_CONFIGS.map (fun cfg => cfg.textEncoderConfig.vocabSize) =
      [none, none, some 8192, some 32768] := by
  refine ⟨rfl, rfl, ?_⟩
  decide

/-- Claim C9: `_vocab_text_gen` is exactly the `text`-field projection
of the train-split generator (with `labeled` at its default `true`),
element for element and in the same order. -/
theorem C9_vocab_gen_is_text_projection (archive : List (String × String)) :
    vocabTextGen archive =
      (generateExamples archive (joinPath "aclImdb" "train") true).map
        (fun pe => pe.2.text) := by
  rw [vocabTextGen, vocabYield_eq_map]

/-- Claim C10: the generator reads the content stream only of matching
entries; the stream of a skipped entry is returned exactly as it was,
never read or consumed. -/
theorem C10_skipped_stream_untouched
    (archive : List (String × ByteStream)) (d : String) (lab : Bool) (i : Nat)
    (p : String) (f : ByteStream)
    (hget : archive.get? i = some (p, f)) (hskip : pathMatch d lab p = none) :
    (generateExamplesStream archive d lab).2.get? i = some (p, f) := by
  induction archive generalizing i with
  | nil => cases hget
  | cons e rest ih =>
    obtain ⟨q, g⟩ := e
    cases i with
    | zero =>
      simp only [List.get?] at hget
      injection hget with h
      rw [Prod.mk.injEq] at h
      obtain ⟨rfl, rfl⟩ := h
      simp [generateExamplesStream, hskip, List.get?]
    | succ n =>
      simp only [List.get?] at hget
      cases hmq : pathMatch d lab q with
      | none =>
        simp only [generateExamplesStream, hmq, List.get?]
        exact ih n hget
      | some seg =>
        simp only [generateExamplesStream, hmq, List.get?]
        exact ih n hget

/-- Witness for C10: an extraneous archive entry outside the pattern
keeps its unconsumed stream through the labeled train generator. -/
theorem C10_witness :
    (generateExamplesStream
      [("other/readme.txt", { content := "hello", consumed := false })] trainDir true).2.get? 0 =
      some ("other/readme.txt", { content := "hello", consumed := false }) :=
  C10_skipped_stream_untouched
    [("other/readme.txt", { content := "hello", consumed := false })] trainDir true 0
    "other/readme.txt" { content := "hello", consumed := false } (by decide) (by decide)

end Imdb
